import Mathlib

/-!
Shallow embedding of `src/cp/audio/spectrogram.py` (the `Spectrogram` class
and the helpers its accessors use).  Real-valued sample and spectral data is
modelled over `ℚ`.  The external numeric kernels (scipy's `fft.fft`, numpy's
`angle`, `abs`, `log10`, `hanning`) are opaque function parameters or state
fields; `np.empty` buffers are modelled with an explicit `uninit` fill value;
Python ints are `ℤ`/`ℕ` and Python 2 integer `/` is floor division
(`Int.fdiv`).  Exceptions of the embedded code are values of `PyErr`.
-/

/-- Complex number with rational components, standing for numpy complex entries. -/
structure Cplx where
  re : ℚ
  im : ℚ
deriving DecidableEq

/-- Matrix of rationals, a list of rows. -/
abbrev Mat := List (List ℚ)

/-- Python exceptions raised by the embedded code paths. -/
inductive PyErr
  | typeError
  | attributeError
deriving DecidableEq

/-- Python-style mod with the sign of the divisor, as used inside `np.unwrap`. -/
def pymod (a b : ℚ) : ℚ := a - b * ((⌊a / b⌋ : ℤ) : ℚ)

/-- Correction that `np.unwrap` adds to one adjacent difference `d`:
map `d` into `[-pi, pi)` modulo `2 * pi`, special-case the boundary for
positive `d`, and leave differences smaller than the discontinuity
threshold `pi` untouched.  `pi` parameterises the irrational constant. -/
def unwrap_correction (pi d : ℚ) : ℚ :=
  let ddmod := pymod (d + pi) (2 * pi) - pi
  let ddmod := if ddmod = -pi ∧ 0 < d then pi else ddmod
  if |d| < pi then 0 else ddmod - d

/-- Tail worker for `np_unwrap`: `prev` is the previous original entry and
`acc` the accumulated correction. -/
def np_unwrap_go (pi : ℚ) (prev acc : ℚ) : List ℚ → List ℚ
  | [] => []
  | y :: ys =>
    (y + (acc + unwrap_correction pi (y - prev))) ::
      np_unwrap_go pi y (acc + unwrap_correction pi (y - prev)) ys

/-- Embeds `np.unwrap` on a 1-D array: each entry is shifted by the cumulative
sum of the corrections of the adjacent differences before it. -/
def np_unwrap (pi : ℚ) : List ℚ → List ℚ
  | [] => []
  | x :: xs => x :: np_unwrap_go pi x 0 xs

/-- Differences `u[i] - u[i+1]` of adjacent entries (`u[:-1] - u[1:]`). -/
def diff_succ (u : List ℚ) : List ℚ := List.zipWith (fun x y => x - y) u u.tail

/-- Embeds the per-frame local-group-delay row of `compute_stft`
(spectrogram.py:366-370): `self.__lgd[frame_index, :-1] = unwrapped_phase[:-1]
- unwrapped_phase[1:]` with `unwrapped_phase = np.unwrap(angle, axis=1)`.
Here `angle` is the 1-D angle row of the current frame, so the unwrap is
taken along that row (numpy itself rejects `axis=1` for a 1-D argument,
an `AxisError`; the row Formula the assignment denotes is embedded).
The last bin keeps the `np.empty` fill value `uninit`. -/
def lgd_row_from_angle (pi uninit : ℚ) (angle : List ℚ) : List ℚ :=
  if angle = [] then [] else diff_succ (np_unwrap pi angle) ++ [uninit]

/-- Embeds the matrix denoted by the cached-phase branch of the `lgd`
accessor (spectrogram.py:446-448): `self.__lgd[:, :-1] = unwrapped_phase[:, -1]
- unwrapped_phase[:, 1:]` with `unwrapped_phase = np.unwrap(self.__phase,
axis=1)`.  Each row subtracts every later bin from the LAST unwrapped bin
`unwrapped_phase[:, -1]`; this per-row reading is exact for a one-frame phase
matrix, the only shape for which the numpy broadcast succeeds in general.
The source assigns the result into `self.__lgd`, which is still `None` on
this path. -/
def lgd_from_phase_code (pi uninit : ℚ) (phase : Mat) : Mat :=
  phase.map (fun row =>
    let u := np_unwrap pi row
    if u = [] then [] else (u.tail.map (fun y => u.getLastD 0 - y)) ++ [uninit])

/-- Embeds `np.maximum(a, fl, out)` as called in `Spectrogram.aw`
(spectrogram.py:508): `np.maximum` is a binary ufunc, so a third positional
argument is its `out` buffer.  The result is the elementwise maximum of the
first two arguments; the previous contents of `out` never influence it. -/
def np_maximum_out (a : List ℚ) (fl : ℚ) (out : List ℚ) : List ℚ :=
  let _ := out
  a.map (fun x => max x fl)

/-- Worker for `aw_P`, one step per later frame: the code passes the decayed
previous peak `mem_coeff * P[f-1]` as the `out` argument of `np.maximum`. -/
def aw_P_go (fl mem_coeff : ℚ) (prev : List ℚ) : Mat → Mat
  | [] => []
  | row :: rest =>
    let p := np_maximum_out row fl (prev.map (fun x => mem_coeff * x))
    p :: aw_P_go fl mem_coeff p rest

/-- Embeds the running-peak loop of `Spectrogram.aw` (spectrogram.py:503-510)
over a given magnitude matrix.  `mem_coeff` stands for the local
`10.0 ** (-6. * relaxation / self.fps)`; note the class defines neither
`self.fps` nor `self.frames`, so the method as written raises an
`AttributeError` before the loop, and the final `self.spec /= P` assigns to
a setter-less property.  The loop body itself is embedded as written. -/
def aw_P (spec : Mat) (fl mem_coeff : ℚ) : Mat :=
  match spec with
  | [] => []
  | row :: rest =>
    (row.map (fun x => max x fl)) :: aw_P_go fl mem_coeff (row.map (fun x => max x fl)) rest

/-- Worker for `aw_P_claim`: the three-way maximum of the claim. -/
def aw_P_claim_go (fl mem_coeff : ℚ) (prev : List ℚ) : Mat → Mat
  | [] => []
  | row :: rest =>
    let p := List.zipWith (fun x y => max (max x fl) y) row (prev.map (fun x => mem_coeff * x))
    p :: aw_P_claim_go fl mem_coeff p rest

/-- Modelled from the spec: the adaptive-whitening running peak with the
three-way maximum `P[f] = max(spec[f], floor, decay * P[f-1])` for `f > 0`
and `P[0] = max(spec[0], floor)`. -/
def aw_P_claim (spec : Mat) (fl mem_coeff : ℚ) : Mat :=
  match spec with
  | [] => []
  | row :: rest =>
    (row.map (fun x => max x fl)) ::
      aw_P_claim_go fl mem_coeff (row.map (fun x => max x fl)) rest

/-- Index selector passed to `compute_stft` (the `index` argument): `none`
for the whole signal, a single integer index, or a Python
`slice(start, stop, step)`. -/
inductive FrameIndex
  | none
  | int (i : ℤ)
  | slice (start stop step : ℤ)

/-- Embeds the frame-count computation of `compute_stft`
(spectrogram.py:285-295).  Python 2 `/` on integers is floor division. -/
def computeFrames : FrameIndex → ℕ → ℤ
  | .slice a b st, _ => (b + 1 - a).fdiv st
  | .int _, _ => 1
  | .none, n => (n : ℤ)

/-- Normalises a Python sequence index for length `len`: negative values
count from the end, results are clamped into `[0, len]`. -/
def pyNorm (len : ℕ) (i : ℤ) : ℕ :=
  if i < 0 then ((len : ℤ) + i).toNat else min i.toNat len

/-- Indices selected by a Python slice with a positive step. -/
def sliceIndices (len : ℕ) (a b st : ℤ) : List ℕ :=
  if st ≤ 0 then [] else
    (List.range len).filter
      (fun k => pyNorm len a ≤ k ∧ k < pyNorm len b ∧ (k - pyNorm len a) % st.toNat = 0)

/-- Modelled from the spec: the frame provider's indexed/sliced access
(`self.audio[index]`; `FramedAudio.__getitem__` lives outside `src/`).
`none` yields every frame, an integer exactly one frame, and a slice the
standard sliced selection of frames. -/
def pySlice (idx : FrameIndex) (xs : List (List ℚ)) : List (List ℚ) :=
  match idx with
  | .none => xs
  | .int i => ((xs.get? (pyNorm xs.length i)).map (fun f => [f])).getD []
  | .slice a b st => (sliceIndices xs.length a b st).map (fun k => xs.getD k [])

/-- Pre-allocated `np.empty([alloc, _])` buffer whose leading rows are
overwritten by the computed rows; unwritten rows keep the `blank` fill
value.  (A computed row beyond the allocation is dropped here; the claims
below never exercise that case.) -/
def buildRows {α : Type} (computed : List α) (alloc : ℕ) (blank : α) : List α :=
  computed.take alloc ++ List.replicate (alloc - computed.length) blank

/-- Row vector times matrix, `np.dot(spec, filterbank)`. -/
def vecMat (v : List ℚ) (m : Mat) : List ℚ :=
  (List.range (m.headD []).length).map
    (fun j => (List.zipWith (fun x row => x * row.getD j 0) v m).sum)

/-- State of a `Spectrogram` instance (spectrogram.py:118-512).  The frame
provider is modelled by its frames and the integer-dtype scale `intMax`;
the scipy/numpy numeric kernels (`fft.fft`, `np.angle`, `np.abs`,
`np.log10`) are opaque fields; `pi` parameterises `np.unwrap`; `uninit` and
`uninitC` stand for the contents of `np.empty` buffers; `computeCount`
instruments how often the batch derivation pass `compute_stft` has run. -/
structure Spectrogram where
  frames : List (List ℚ)
  intMax : Option ℚ
  fftF : List ℚ → ℕ → List Cplx
  angleF : Cplx → ℚ
  absF : Cplx → ℚ
  log10F : ℚ → ℚ
  pi : ℚ
  uninit : ℚ
  uninitC : Cplx
  window : List ℚ
  fft_size : ℕ
  online : Bool
  stft_flag : Bool
  phase_flag : Bool
  lgd_flag : Bool
  filterbank : Option Mat
  log : Bool
  mul : ℚ
  add : ℚ
  spec_cache : Option Mat
  stft_cache : Option (List (List Cplx))
  phase_cache : Option Mat
  lgd_cache : Option Mat
  computeCount : ℕ

/-- Embeds the `filterbank` property setter (spectrogram.py:216-221): store
the new filterbank and invalidate the magnitude spectrogram. -/
def Spectrogram.set_filterbank (s : Spectrogram) (fb : Option Mat) : Spectrogram :=
  { s with filterbank := fb, spec_cache := none }

/-- Embeds the `log` property setter (spectrogram.py:227-232). -/
def Spectrogram.set_log (s : Spectrogram) (l : Bool) : Spectrogram :=
  { s with log := l, spec_cache := none }

/-- Embeds the `mul` property setter (spectrogram.py:238-243). -/
def Spectrogram.set_mul (s : Spectrogram) (m : ℚ) : Spectrogram :=
  { s with mul := m, spec_cache := none }

/-- Embeds the `add` property setter (spectrogram.py:249-254). -/
def Spectrogram.set_add (s : Spectrogram) (a : ℚ) : Spectrogram :=
  { s with add := a, spec_cache := none }

/-- Plain attribute assignment `self.window = w`: the class defines no
property for `window`, so the assignment touches no cache. -/
def Spectrogram.set_window (s : Spectrogram) (w : List ℚ) : Spectrogram :=
  { s with window := w }

/-- Plain attribute assignment `self.fft_size = n`: the class defines no
property for `fft_size`, so the assignment touches no cache. -/
def Spectrogram.set_fft_size (s : Spectrogram) (n : ℕ) : Spectrogram :=
  { s with fft_size := n }

/-- Embeds the `fft_bins` property (spectrogram.py:471-474):
`self.fft_size >> 1`. -/
def Spectrogram.fft_bins (s : Spectrogram) : ℕ := s.fft_size >>> 1

/-- Embeds `_fft_window` (spectrogram.py:256-268): scale a copy of the
window by the integer dtype's maximum when the signal is fixed-point,
otherwise return the window as is. -/
def Spectrogram.fft_window (s : Spectrogram) : List ℚ :=
  match s.intMax with
  | some m => s.window.map (fun x => x / m)
  | none => s.window

set_option maxHeartbeats 1000000 in
/-- Embeds `compute_stft` (spectrogram.py:270-383): determine the frame
count from `index`, apply the parameter overrides through the property
setters, latch the stft/phase/lgd request flags, then derive per frame the
windowed (and, when phase or lgd is on, circularly shifted) transform and
write the requested matrices plus, unconditionally, the magnitude
spectrogram.  `angle` is evaluated here for every frame but only stored when
requested, which is observationally the code's sharing of `np.angle(dft)`. -/
def Spectrogram.compute_stft (s : Spectrogram) (index : FrameIndex)
    (fbA : Option (Option Mat)) (logA : Option Bool) (mulA addA : Option ℚ)
    (stftA phaseA lgdA : Bool) (fftSizeA : Option ℕ) : Spectrogram :=
  let framesN := (computeFrames index s.frames.length).toNat
  let s1 := match fbA with | some fb => s.set_filterbank fb | none => s
  let s2 := match logA with | some l => s1.set_log l | none => s1
  let s3 := match mulA with | some m => s2.set_mul m | none => s2
  let s4 := match addA with | some a => s3.set_add a | none => s3
  let bins := match s4.filterbank with | some fb => (fb.headD []).length | none => s4.fft_bins
  let s5 := if stftA then { s4 with stft_flag := true } else s4
  let s6 := if phaseA then { s5 with phase_flag := true } else s5
  let s7 := if lgdA then { s6 with lgd_flag := true } else s6
  let window := s7.fft_window
  let fftSize := fftSizeA.getD s7.fft_size
  let rows := (pySlice index s7.frames).map (fun frame =>
    let signal := List.zipWith (fun x y => x * y) frame window
    let signal := if s7.phase_flag || s7.lgd_flag then
        signal.drop (s7.window.length / 2) ++ signal.take (s7.window.length / 2)
      else signal
    let dft := (s7.fftF signal fftSize).take s7.fft_bins
    let angle := dft.map s7.angleF
    let sp0 := dft.map s7.absF
    let sp1 := match s7.filterbank with | some fb => vecMat sp0 fb | none => sp0
    let sp2 := if s7.log then sp1.map (fun x => s7.log10F (s7.mul * x + s7.add)) else sp1
    (dft, angle, lgd_row_from_angle s7.pi s7.uninit angle, sp2))
  { s7 with
    computeCount := s7.computeCount + 1
    spec_cache :=
      some (buildRows (rows.map (fun r => r.2.2.2)) framesN (List.replicate bins s7.uninit))
    stft_cache :=
      if s7.stft_flag then
        some (buildRows (rows.map (fun r => r.1)) framesN
          (List.replicate s7.fft_bins s7.uninitC))
      else s7.stft_cache
    phase_cache :=
      if s7.phase_flag then
        some (buildRows (rows.map (fun r => r.2.1)) framesN
          (List.replicate s7.fft_bins s7.uninit))
      else s7.phase_cache
    lgd_cache :=
      if s7.lgd_flag then
        some (buildRows (rows.map (fun r => r.2.2.1)) framesN
          (List.replicate s7.fft_bins s7.uninit))
      else s7.lgd_cache }

/-- Embeds the `stft` property (spectrogram.py:385-392), returning the
matrix together with the possibly updated state. -/
def Spectrogram.stft (s : Spectrogram) : List (List Cplx) × Spectrogram :=
  match s.stft_cache with
  | some m => (m, s)
  | none =>
    let t := s.compute_stft .none none none none none true false false none
    (t.stft_cache.getD [], t)

/-- Embeds the `spec` property (spectrogram.py:394-413): return the cache,
or derive the magnitude from a present raw transform, or run the batch
derivation pass. -/
def Spectrogram.spec (s : Spectrogram) : Mat × Spectrogram :=
  match s.spec_cache with
  | some m => (m, s)
  | none =>
    match s.stft_cache with
    | some st =>
      let sp0 := st.map (fun row => row.map s.absF)
      let sp1 := match s.filterbank with
        | some fb => sp0.map (fun r => vecMat r fb)
        | none => sp0
      let sp2 := if s.log then
          sp1.map (fun r => r.map (fun x => s.log10F (s.mul * x + s.add)))
        else sp1
      (sp2, { s with spec_cache := some sp2 })
    | none =>
      let t := s.compute_stft .none none none none none false false false none
      (t.spec_cache.getD [], t)

/-- Embeds the `phase` property (spectrogram.py:415-428). -/
def Spectrogram.phase (s : Spectrogram) : Mat × Spectrogram :=
  match s.phase_cache with
  | some m => (m, s)
  | none =>
    match s.stft_cache with
    | some st =>
      let p := st.map (fun row => row.map s.angleF)
      (p, { s with phase_cache := some p })
    | none =>
      let t := s.compute_stft .none none none none none false true false none
      (t.phase_cache.getD [], t)

/-- The `filterbank` setter embedded in an error monad: the source setter
(spectrogram.py:216-221) performs no validation and contains no `raise`, so
it always returns normally, whatever the filterbank's shape. -/
def set_filterbank_exc (s : Spectrogram) (fb : Mat) : Except PyErr Spectrogram :=
  .ok (s.set_filterbank (some fb))

/-- Window argument of the constructor: an integer size, a numpy array, or
any other type. -/
inductive WindowArg
  | size (n : ℕ)
  | arr (w : List ℚ)
  | other

/-- Embeds the window handling of `__init__` (spectrogram.py:160-172 and
199-204) and reports which value, if any, ends up stored in `self.window`.
In the integer branch the generated Hann window (`np.hanning`, an external
numpy routine passed here as `hanning`) is bound to the local variable
`window` only and `self.window` is never assigned; `norm_window` then reads
`self.window` (an `AttributeError` when unset), as does the default
`self.fft_size = self.window.size` when no explicit `fft_size` is given. -/
def init_window_attr (hanning : ℕ → List ℚ) (w : WindowArg)
    (norm_window fft_size_given : Bool) : Except PyErr (Option (List ℚ)) :=
  match w with
  | .other => .error .typeError
  | .size n =>
    let _ := hanning n
    if norm_window then .error .attributeError
    else if fft_size_given then .ok none
    else .error .attributeError
  | .arr a =>
    let a1 := if norm_window then a.map (fun x => x / a.sum) else a
    if fft_size_given then .ok (some a1) else .ok (some a1)

/-- Concrete container instance used to evaluate the theorems on explicit
inputs: six one-sample frames, trivial numeric kernels, no caches. -/
def demoState : Spectrogram where
  frames := [[1], [2], [3], [4], [5], [6]]
  intMax := none
  fftF := fun _ _ => [⟨1, 0⟩]
  angleF := fun c => c.im
  absF := fun c => c.re
  log10F := fun x => x
  pi := 3
  uninit := 0
  uninitC := ⟨0, 0⟩
  window := [1]
  fft_size := 2
  online := false
  stft_flag := false
  phase_flag := false
  lgd_flag := false
  filterbank := none
  log := false
  mul := 1
  add := 0
  spec_cache := none
  stft_cache := none
  phase_cache := none
  lgd_cache := none
  computeCount := 0

/-! Helper lemmas shared by the claim theorems. -/

/-- A pre-allocated buffer always has exactly its allocated number of rows. -/
theorem buildRows_length {α : Type} (c : List α) (n : ℕ) (b : α) :
    (buildRows c n b).length = n := by
  unfold buildRows
  rw [List.length_append, List.length_take, List.length_replicate]
  omega

/-- The batch derivation pass always rebuilds the magnitude cache with the
number of rows dictated by the `index` argument's frame count. -/
theorem compute_spec_len (s : Spectrogram) (idx : FrameIndex)
    (fbA : Option (Option Mat)) (logA : Option Bool) (mulA addA : Option ℚ)
    (stftA phaseA lgdA : Bool) (fsA : Option ℕ) :
    ((s.compute_stft idx fbA logA mulA addA stftA phaseA lgdA fsA).spec_cache.getD []).length
      = (computeFrames idx s.frames.length).toNat := by
  simp [Spectrogram.compute_stft, buildRows_length]

/-- After a `spec` read, the magnitude cache holds the returned matrix. -/
theorem Spectrogram.spec_sets (s : Spectrogram) :
    (s.spec).2.spec_cache = some (s.spec).1 := by
  cases hs : s.spec_cache with
  | some m => simp [Spectrogram.spec, hs]
  | none =>
    cases ht : s.stft_cache with
    | some st => simp [Spectrogram.spec, hs, ht]
    | none => simp [Spectrogram.spec, hs, ht, Spectrogram.compute_stft]

/-- A `spec` read on a state whose magnitude cache is set returns the cache
and leaves the state unchanged. -/
theorem Spectrogram.spec_of_cache (s : Spectrogram) (m : Mat)
    (h : s.spec_cache = some m) : s.spec = (m, s) := by
  simp [Spectrogram.spec, h]

/-- After a `phase` read, the phase cache holds the returned matrix. -/
theorem Spectrogram.phase_sets (s : Spectrogram) :
    (s.phase).2.phase_cache = some (s.phase).1 := by
  cases hp : s.phase_cache with
  | some m => simp [Spectrogram.phase, hp]
  | none =>
    cases ht : s.stft_cache with
    | some st => simp [Spectrogram.phase, hp, ht]
    | none => simp [Spectrogram.phase, hp, ht, Spectrogram.compute_stft]

/-- A `phase` read on a state whose phase cache is set returns the cache and
leaves the state unchanged. -/
theorem Spectrogram.phase_of_cache (s : Spectrogram) (m : Mat)
    (h : s.phase_cache = some m) : s.phase = (m, s) := by
  simp [Spectrogram.phase, h]

/-- After an `stft` read, the raw-transform cache holds the returned matrix. -/
theorem Spectrogram.stft_sets (s : Spectrogram) :
    (s.stft).2.stft_cache = some (s.stft).1 := by
  cases ht : s.stft_cache with
  | some m => simp [Spectrogram.stft, ht]
  | none => simp [Spectrogram.stft, ht, Spectrogram.compute_stft]

/-- An `stft` read on a state whose raw-transform cache is set returns the
cache and leaves the state unchanged. -/
theorem Spectrogram.stft_of_cache (s : Spectrogram) (m : List (List Cplx))
    (h : s.stft_cache = some m) : s.stft = (m, s) := by
  simp [Spectrogram.stft, h]

/-! Claim theorems. -/

/-- C1: the adaptive-whitening running peak drops the decay term.  For the
magnitude spectrogram `[[4], [1]]`, floor `1` and decay coefficient `1/2`,
the loop of `Spectrogram.aw` yields `P = [[4], [1]]` because the decayed
previous peak `mem_coeff * P[f-1]` is `np.maximum`'s `out` buffer, while
the claimed recurrence `P[f] = max(spec[f], floor, decay * P[f-1])` yields
`P = [[4], [2]]`. -/
theorem aw_drops_decay_term :
    aw_P [[4], [1]] 1 (1/2) = [[4], [1]] ∧
    aw_P_claim [[4], [1]] 1 (1/2) = [[4], [2]] ∧
    aw_P [[4], [1]] 1 (1/2) ≠ aw_P_claim [[4], [1]] 1 (1/2) := by
  have h1 : aw_P [[4], [1]] 1 (1/2) = [[4], [1]] := rfl
  have h2 : aw_P_claim [[4], [1]] 1 (1/2) = [[4], [2]] := by
    norm_num [aw_P_claim, aw_P_claim_go]
  exact ⟨h1, h2, by rw [h1, h2]; decide⟩

/-- C2: the cached-phase branch of the `lgd` accessor does not store
`unwrapped[bin] - unwrapped[bin+1]`.  For the one-frame phase matrix
`[[0, 1, 3]]` (unwrap is the identity here: adjacent differences stay below
the threshold), the per-frame derivation formula gives `[-1, -2]` in the
first two bins, while the cached-phase branch computes
`unwrapped[:, -1] - unwrapped[:, 1:] = [2, 0]`; the last bin keeps the fill
value `7` in both. -/
theorem lgd_cached_path_wrong_column :
    lgd_row_from_angle 3 7 [0, 1, 3] = [-1, -2, 7] ∧
    lgd_from_phase_code 3 7 [[0, 1, 3]] = [[2, 0, 7]] ∧
    lgd_from_phase_code 3 7 [[0, 1, 3]] ≠ [[-1, -2, 7]] := by
  have h1 : lgd_row_from_angle 3 7 [0, 1, 3] = [-1, -2, 7] := by
    norm_num [lgd_row_from_angle, diff_succ, np_unwrap, np_unwrap_go,
      unwrap_correction, pymod]
    intro h
    simp at h
  have h2 : lgd_from_phase_code 3 7 [[0, 1, 3]] = [[2, 0, 7]] := by
    norm_num [lgd_from_phase_code, np_unwrap, np_unwrap_go,
      unwrap_correction, pymod]
    intro h
    simp at h
  exact ⟨h1, h2, by rw [h2]; decide⟩

/-- C3: each of the four magnitude-parameter setters clears the cached
magnitude spectrogram and leaves the raw-transform, phase and
local-group-delay caches unchanged; in particular a phase matrix read
before setting `log = true` is unaffected by that mutation. -/
theorem magnitude_setters_invalidate_only_spec (s : Spectrogram)
    (fb : Option Mat) (l : Bool) (m a : ℚ) :
    ((s.set_filterbank fb).spec_cache = none ∧
      (s.set_filterbank fb).stft_cache = s.stft_cache ∧
      (s.set_filterbank fb).phase_cache = s.phase_cache ∧
      (s.set_filterbank fb).lgd_cache = s.lgd_cache) ∧
    ((s.set_log l).spec_cache = none ∧
      (s.set_log l).stft_cache = s.stft_cache ∧
      (s.set_log l).phase_cache = s.phase_cache ∧
      (s.set_log l).lgd_cache = s.lgd_cache) ∧
    ((s.set_mul m).spec_cache = none ∧
      (s.set_mul m).stft_cache = s.stft_cache ∧
      (s.set_mul m).phase_cache = s.phase_cache ∧
      (s.set_mul m).lgd_cache = s.lgd_cache) ∧
    ((s.set_add a).spec_cache = none ∧
      (s.set_add a).stft_cache = s.stft_cache ∧
      (s.set_add a).phase_cache = s.phase_cache ∧
      (s.set_add a).lgd_cache = s.lgd_cache) ∧
    (((s.phase).2.set_log true).phase).1 = (s.phase).1 := by
  refine ⟨⟨rfl, rfl, rfl, rfl⟩, ⟨rfl, rfl, rfl, rfl⟩, ⟨rfl, rfl, rfl, rfl⟩,
    ⟨rfl, rfl, rfl, rfl⟩, ?_⟩
  have h : ((s.phase).2.set_log true).phase_cache = some (s.phase).1 :=
    Spectrogram.phase_sets s
  rw [Spectrogram.phase_of_cache _ _ h]

/-- C4 counterexample: invoked with `slice(0, 4, 1)`, the batch derivation
pass computes `(4 + 1 - 0) / 1 = 5` frame rows, not
`ceil((4 - 0) / 1) = 4`. -/
theorem compute_stft_slice_count_counterexample :
    ((demoState.compute_stft (.slice 0 4 1) none none none none
        false false false none).spec_cache.getD []).length = 5 ∧
    Int.ceil (((4 : ℚ) - 0) / 1) = 4 ∧ (5 : ℕ) ≠ 4 := by
  refine ⟨?_, by norm_num, by decide⟩
  rw [compute_spec_len]
  decide

/-- C4 (amended): invoked with `slice(start, stop, step)` the batch
derivation pass computes `(stop + 1 - start) / step` frame rows (Python 2
floor division; this exceeds `ceil((stop - start) / step)` for example when
`step = 1`); with a single integer index it computes exactly one row; with
no selector it computes the frame provider's total frame count. -/
theorem compute_stft_row_count (s : Spectrogram) (a b st i : ℤ)
    (fbA : Option (Option Mat)) (logA : Option Bool) (mulA addA : Option ℚ)
    (stftA phaseA lgdA : Bool) (fsA : Option ℕ) :
    ((s.compute_stft (.slice a b st) fbA logA mulA addA stftA phaseA lgdA
        fsA).spec_cache.getD []).length = ((b + 1 - a).fdiv st).toNat ∧
    ((s.compute_stft (.int i) fbA logA mulA addA stftA phaseA lgdA
        fsA).spec_cache.getD []).length = 1 ∧
    ((s.compute_stft .none fbA logA mulA addA stftA phaseA lgdA
        fsA).spec_cache.getD []).length = s.frames.length := by
  refine ⟨?_, ?_, ?_⟩ <;> rw [compute_spec_len] <;> simp [computeFrames]

/-- C5: reading `spec`, `phase` or `stft` a second time with no intervening
mutation returns the identical cached matrix and the identical state, so
the derivation pass is not re-invoked (the instrumentation counter is part
of the unchanged state). -/
theorem accessor_reads_idempotent (s : Spectrogram) :
    (s.spec).2.spec = ((s.spec).1, (s.spec).2) ∧
    (s.phase).2.phase = ((s.phase).1, (s.phase).2) ∧
    (s.stft).2.stft = ((s.stft).1, (s.stft).2) :=
  ⟨Spectrogram.spec_of_cache _ _ (Spectrogram.spec_sets s),
   Spectrogram.phase_of_cache _ _ (Spectrogram.phase_sets s),
   Spectrogram.stft_of_cache _ _ (Spectrogram.stft_sets s)⟩

/-- C6 counterexample: on `demoState` (`fft_bins = 1`) assigning the
three-row filterbank `[[1], [1], [1]]` raises nothing: the setter returns
normally with the mismatched filterbank stored. -/
theorem filterbank_setter_no_shape_check :
    ([[1], [1], [1]] : Mat).length ≠ demoState.fft_bins ∧
    set_filterbank_exc demoState [[1], [1], [1]]
      = Except.ok (demoState.set_filterbank (some [[1], [1], [1]])) :=
  ⟨by decide, rfl⟩

/-- C6 (amended): the filterbank setter performs no shape validation: for
every state and every filterbank, of matching row count or not, it returns
normally, stores the filterbank, clears only the magnitude cache and leaves
the other caches unchanged; a mismatch is not detected at mutation time. -/
theorem filterbank_setter_stores_unchecked (s : Spectrogram) (fb : Mat) :
    set_filterbank_exc s fb = Except.ok (s.set_filterbank (some fb)) ∧
    (s.set_filterbank (some fb)).filterbank = some fb ∧
    (s.set_filterbank (some fb)).spec_cache = none ∧
    (s.set_filterbank (some fb)).stft_cache = s.stft_cache ∧
    (s.set_filterbank (some fb)).phase_cache = s.phase_cache ∧
    (s.set_filterbank (some fb)).lgd_cache = s.lgd_cache :=
  ⟨rfl, rfl, rfl, rfl, rfl, rfl⟩

/-- C7: constructed with an integer window argument, the container never
stores the generated Hann window: for every Hann generator and length, the
constructor either raises an `AttributeError` (when `norm_window` is set or
no explicit `fft_size` is given) or completes with the `window` attribute
unset; it never completes with a stored window. -/
theorem init_int_window_never_stored (hanning : ℕ → List ℚ) (n : ℕ)
    (norm fg : Bool) (w : List ℚ) :
    init_window_attr hanning (.size n) norm fg ≠ Except.ok (some w) ∧
    init_window_attr hanning (.size n) false false
      = Except.error PyErr.attributeError ∧
    init_window_attr hanning (.size n) false true = Except.ok none := by
  refine ⟨?_, rfl, rfl⟩
  cases norm <;> cases fg <;> simp [init_window_attr]

/-- C8: for every container with positive `fft_size`, the `fft_bins`
accessor equals `fft_size >> 1`, the integer floor-division of `fft_size`
by two. -/
theorem fft_bins_is_half_fft_size (s : Spectrogram) (h : 0 < s.fft_size) :
    s.fft_bins = s.fft_size >>> 1 ∧ s.fft_bins = s.fft_size / 2 := by
  refine ⟨rfl, ?_⟩
  simpa using Nat.shiftRight_eq_div_pow s.fft_size 1

/-- C8 witness: the theorem applied to the concrete container `demoState`
with `fft_size = 2`. -/
theorem fft_bins_is_half_fft_size_witness :
    0 < demoState.fft_size ∧
    (demoState.fft_bins = demoState.fft_size >>> 1 ∧
      demoState.fft_bins = demoState.fft_size / 2) :=
  ⟨by decide, fft_bins_is_half_fft_size demoState (by decide)⟩

/-- C10: reassigning `window` or `fft_size` leaves every cache unchanged,
and among the mutators only the four magnitude-parameter setters clear a
cache, namely exactly the magnitude cache. -/
theorem window_fft_size_assignment_no_invalidation (s : Spectrogram)
    (w : List ℚ) (n : ℕ) (fb : Option Mat) (l : Bool) (m a : ℚ) :
    ((s.set_window w).spec_cache = s.spec_cache ∧
      (s.set_window w).stft_cache = s.stft_cache ∧
      (s.set_window w).phase_cache = s.phase_cache ∧
      (s.set_window w).lgd_cache = s.lgd_cache) ∧
    ((s.set_fft_size n).spec_cache = s.spec_cache ∧
      (s.set_fft_size n).stft_cache = s.stft_cache ∧
      (s.set_fft_size n).phase_cache = s.phase_cache ∧
      (s.set_fft_size n).lgd_cache = s.lgd_cache) ∧
    ((s.set_filterbank fb).stft_cache = s.stft_cache ∧
      (s.set_filterbank fb).phase_cache = s.phase_cache ∧
      (s.set_filterbank fb).lgd_cache = s.lgd_cache) ∧
    ((s.set_log l).stft_cache = s.stft_cache ∧
      (s.set_log l).phase_cache = s.phase_cache ∧
      (s.set_log l).lgd_cache = s.lgd_cache) ∧
    ((s.set_mul m).stft_cache = s.stft_cache ∧
      (s.set_mul m).phase_cache = s.phase_cache ∧
      (s.set_mul m).lgd_cache = s.lgd_cache) ∧
    ((s.set_add a).stft_cache = s.stft_cache ∧
      (s.set_add a).phase_cache = s.phase_cache ∧
      (s.set_add a).lgd_cache = s.lgd_cache) :=
  ⟨⟨rfl, rfl, rfl, rfl⟩, ⟨rfl, rfl, rfl, rfl⟩, ⟨rfl, rfl, rfl⟩,
    ⟨rfl, rfl, rfl⟩, ⟨rfl, rfl, rfl⟩, ⟨rfl, rfl, rfl⟩⟩
